import Mathlib

/-!
Shallow embedding of the round-el language server (server/src/server.ts) and
of the client shell it is paired with.  The server answers initialize,
completion and completion-resolve requests from static catalogs of keywords,
builtin functions and bracket/quote auto-pair items.  Machine state that the
handlers could observe (the open-document manager, capability flags, settings)
is carried explicitly as a ServerState value; the handlers below are literal
translations of the TypeScript handler bodies.  A handler that can raise a
JavaScript runtime error (property access on undefined) or that the design
allows to fail is embedded with an Except result; a handler that always
returns normally always produces Except.ok.
-/

/-- Completion item kinds used by the server: CompletionItemKind.Text,
CompletionItemKind.Keyword, CompletionItemKind.Function. -/
inductive CompletionItemKind where
  | Text
  | Keyword
  | Function
  deriving DecidableEq

/-- The opaque resolve data the server attaches to keyword and function
items: data: \x7b type: ..., id: index \x7d, where id is the array index of
the entry in its catalog. -/
structure ResolveData where
  type : String
  id : Nat
  deriving DecidableEq

/-- A documentation value: either a plain string (as assigned in the keyword
switch) or a markdown object \x7b kind: markdown, value \x7d (as assigned in
the function branch). -/
inductive Documentation where
  | plain (s : String)
  | markdown (value : String)
  deriving DecidableEq

/-- An LSP completion item as the server builds and mutates it: label, kind,
optional insertText (bracket and quote items), optional resolve data, and the
detail/documentation fields that resolve fills in. -/
structure CompletionItem where
  label : String
  kind : CompletionItemKind
  insertText : Option String := none
  data : Option ResolveData := none
  detail : Option String := none
  documentation : Option Documentation := none
  deriving DecidableEq

/-- The keywords catalog from server.ts. -/
def keywords : List String :=
  ["if", "else", "for", "while", "break", "continue", "return", "and", "or",
   "import"]

/-- A builtin-function catalog entry: name, category, documentation. -/
structure BuiltinFunction where
  name : String
  category : String
  documentation : String
  deriving DecidableEq

/-- The functions catalog from server.ts. -/
def functions : List BuiltinFunction :=
  [⟨"to_timestamp", "Date", "Convert to timestamp"⟩,
   ⟨"to_unix_timestamp", "Date", "Convert to Unix timestamp"⟩,
   ⟨"parse_date", "Date", "Parse date string"⟩,
   ⟨"parse_local_datetime", "Date", "Parse local datetime"⟩,
   ⟨"date_format", "Date", "Format date"⟩,
   ⟨"print", "IO", "Print to stdout"⟩,
   ⟨"printf", "IO", "Formatted print"⟩,
   ⟨"println", "IO", "Print with newline"⟩,
   ⟨"printi", "IO", "Print integer"⟩,
   ⟨"interpolate", "IO", "String interpolation"⟩,
   ⟨"rand", "Random", "Random float"⟩,
   ⟨"randi", "Random", "Random integer"⟩,
   ⟨"choose", "Random", "Choose random element"⟩,
   ⟨"uuid", "Random", "Generate UUID"⟩,
   ⟨"uuid32", "Random", "Generate 32-char UUID"⟩,
   ⟨"uuid36", "Random", "Generate 36-char UUID"⟩,
   ⟨"reverse", "String", "Reverse string or array"⟩]

/-- The brackets catalog from server.ts: six Text items whose insertText
equals the label. -/
def brackets : List CompletionItem :=
  [{ label := "(", kind := .Text, insertText := some "(" },
   { label := ")", kind := .Text, insertText := some ")" },
   { label := "\x7b", kind := .Text, insertText := some "\x7b" },
   { label := "\x7d", kind := .Text, insertText := some "\x7d" },
   { label := "[", kind := .Text, insertText := some "[" },
   { label := "]", kind := .Text, insertText := some "]" }]

/-- The quotes catalog from server.ts: double quote and single quote. -/
def quotes : List CompletionItem :=
  [{ label := "\"", kind := .Text, insertText := some "\"" },
   { label := "\x27", kind := .Text, insertText := some "\x27" }]

/-- A cursor position in a document. -/
structure Position where
  line : Nat
  character : Nat
  deriving DecidableEq

/-- The TextDocumentPositionParams of a completion request. -/
structure TextDocumentPositionParams where
  uri : String
  position : Position
  deriving DecidableEq

/-- The mutable state of the server process: the open documents owned by the
TextDocuments manager (uri paired with text snapshot), the two capability
flags set by onInitialize, and the global maxNumberOfProblems setting. -/
structure ServerState where
  openDocs : List (String × String)
  hasConfigurationCapability : Bool
  hasWorkspaceFolderCapability : Bool
  maxNumberOfProblems : Nat
  deriving DecidableEq

/-- Error outcomes distinguishable on the completion/resolve path: the
DocumentNotFound condition named by the design, and a JavaScript TypeError
raised by a property access on undefined. -/
inductive LspError where
  | documentNotFound
  | typeError
  deriving DecidableEq

/-- The keyword items built by onCompletion: label, CompletionItemKind.Keyword,
data \x7b type: keyword, id: index \x7d. -/
def keywordItems : List CompletionItem :=
  keywords.mapIdx (fun index keyword =>
    { label := keyword, kind := .Keyword, data := some ⟨"keyword", index⟩ })

/-- The function items built by onCompletion: label, CompletionItemKind.Function,
data \x7b type: function, id: index \x7d. -/
def functionItems : List CompletionItem :=
  functions.mapIdx (fun index func =>
    { label := func.name, kind := .Function, data := some ⟨"function", index⟩ })

/-- The list returned by every completion request:
functionItems, then keywordItems, then brackets, then quotes. -/
def completionList : List CompletionItem :=
  functionItems ++ keywordItems ++ brackets ++ quotes

/-- connection.onCompletion: the handler ignores its TextDocumentPositionParams
argument and reads none of the server state; it always returns the
concatenation functionItems, keywordItems, brackets, quotes and never raises
or reports an error. -/
def onCompletion (_s : ServerState) (_p : TextDocumentPositionParams) :
    Except LspError (List CompletionItem) :=
  .ok completionList

/-- The list produced by a completion request, empty if the request errored. -/
def completionListOf (s : ServerState) (p : TextDocumentPositionParams) :
    List CompletionItem :=
  match onCompletion s p with
  | .ok l => l
  | .error _ => []

/-- The switch over the keyword inside the keyword branch of
onCompletionResolve: documentation text per keyword, none on default. -/
def keywordDoc (kw : String) : Option String :=
  if kw = "if" ∨ kw = "else" then some "Conditional statement"
  else if kw = "for" ∨ kw = "while" then some "Loop statement"
  else if kw = "break" then some "Exit from loop"
  else if kw = "continue" then some "Skip to next iteration"
  else if kw = "return" then some "Return from function"
  else if kw = "and" ∨ kw = "or" then some "Logical operator"
  else if kw = "import" then some "Import statement"
  else none

/-- The value of the JavaScript cast item.documentation as string, used only
by the dead fallback branch of onCompletionResolve. -/
def docAsString : Option Documentation → String
  | some (.plain s) => s
  | some (.markdown v) => v
  | none => "undefined"

/-- connection.onCompletionResolve, translated branch for branch.
Reading data.type when item.data is undefined raises a TypeError.
Keyword branch: keywords[data.id] out of range leaves keyword undefined, so
detail becomes the template-literal string Keyword: undefined and the switch
assigns nothing; in range, detail and documentation are assigned.
Function branch: functions[data.id] out of range makes func.category raise a
TypeError; in range, detail and markdown documentation are assigned.
The second data.type = keyword test is the fallback branch from the source,
kept verbatim. -/
def onCompletionResolve (item : CompletionItem) :
    Except LspError CompletionItem :=
  match item.data with
  | none => .error .typeError
  | some data =>
    if data.type = "keyword" then
      match keywords[data.id]? with
      | some keyword =>
        match keywordDoc keyword with
        | some doc =>
          .ok { item with detail := some ("Keyword: " ++ keyword),
                          documentation := some (.plain doc) }
        | none =>
          .ok { item with detail := some ("Keyword: " ++ keyword) }
      | none => .ok { item with detail := some "Keyword: undefined" }
    else if data.type = "function" then
      match functions[data.id]? with
      | some func =>
        .ok { item with detail := some (func.category ++ ": " ++ func.name),
                        documentation := some (.markdown func.documentation) }
      | none => .error .typeError
    else if data.type = "keyword" then
      .ok { item with
              documentation := some (.markdown (docAsString item.documentation)) }
    else .ok item

/-- Whether execution of onCompletionResolve reaches the fallback branch that
re-tests data.type = keyword: the first test must have been false, the
function test false, and then the re-test true. -/
def deadKeywordBranchTaken (item : CompletionItem) : Bool :=
  match item.data with
  | none => false
  | some data =>
    !(data.type == "keyword") && !(data.type == "function") &&
      (data.type == "keyword")

/-- The client workspace capabilities the server inspects in onInitialize. -/
structure ClientWorkspaceCapabilities where
  configuration : Bool
  workspaceFolders : Bool
  deriving DecidableEq

/-- The client capabilities carried by an initialize request. -/
structure ClientCapabilities where
  workspace : Option ClientWorkspaceCapabilities
  deriving DecidableEq

/-- The InitializeParams of an initialize request. -/
structure InitializeParams where
  capabilities : ClientCapabilities
  deriving DecidableEq

/-- The TextDocumentSyncKind values of the protocol. -/
inductive TextDocumentSyncKind where
  | NoSync
  | Full
  | Incremental
  deriving DecidableEq

/-- The completionProvider capability the server announces. -/
structure CompletionOptions where
  resolveProvider : Bool
  deriving DecidableEq

/-- The workspaceFolders server capability. -/
structure WorkspaceFoldersServerCapabilities where
  supported : Bool
  deriving DecidableEq

/-- The capabilities field of the initialize result. -/
structure ServerCapabilities where
  textDocumentSync : TextDocumentSyncKind
  completionProvider : CompletionOptions
  workspace : Option WorkspaceFoldersServerCapabilities
  deriving DecidableEq

/-- The InitializeResult the server returns. -/
structure InitializeResult where
  capabilities : ServerCapabilities
  deriving DecidableEq

/-- connection.onInitialize: records the two capability flags in server state
and returns textDocumentSync Incremental and completionProvider with
resolveProvider true, adding the workspace capability only when the client
supports workspace folders. -/
def onInitialize (s : ServerState) (params : InitializeParams) :
    ServerState × InitializeResult :=
  let hasConfig :=
    match params.capabilities.workspace with
    | some w => w.configuration
    | none => false
  let hasWsf :=
    match params.capabilities.workspace with
    | some w => w.workspaceFolders
    | none => false
  ({ s with hasConfigurationCapability := hasConfig,
            hasWorkspaceFolderCapability := hasWsf },
   ⟨{ textDocumentSync := .Incremental,
      completionProvider := { resolveProvider := true },
      workspace := if hasWsf then some { supported := true } else none }⟩)

/-- A server state with no open documents. -/
def stateA : ServerState :=
  { openDocs := [], hasConfigurationCapability := false,
    hasWorkspaceFolderCapability := false, maxNumberOfProblems := 1000 }

/-- A server state with one open document containing if x \x7b return. -/
def stateB : ServerState :=
  { openDocs := [("file:///a.rel", "if x \x7b return")],
    hasConfigurationCapability := true,
    hasWorkspaceFolderCapability := true, maxNumberOfProblems := 1000 }

/-- A completion request against a uri that was never opened. -/
def paramsA : TextDocumentPositionParams :=
  ⟨"file:///never-opened.rel", ⟨0, 0⟩⟩

/-- A completion request in stateB's document with the cursor right after
ret, the third character of the word return. -/
def paramsB : TextDocumentPositionParams :=
  ⟨"file:///a.rel", ⟨0, 10⟩⟩

/-- The completion item the server emits for the builtin to_timestamp. -/
def toTimestampItem : CompletionItem :=
  { label := "to_timestamp", kind := .Function, data := some ⟨"function", 0⟩ }

/-- C1: every completion request returns, without error, the merge of
builtin-function items first, then keyword items, then bracket items, then
quote items; the bracket and quote items are present unconditionally for any
request, and the list is the full union of the three catalogs with no two
items sharing both label and kind. -/
theorem completion_full_catalog_merge (s : ServerState)
    (p : TextDocumentPositionParams) :
    onCompletion s p = .ok (functionItems ++ keywordItems ++ brackets ++ quotes)
    ∧ (completionList.map fun it => (it.label, it.kind)).Nodup
    ∧ (∀ f ∈ functions, ∃ it ∈ completionList,
         it.label = f.name ∧ it.kind = .Function)
    ∧ (∀ kw ∈ keywords, ∃ it ∈ completionList,
         it.label = kw ∧ it.kind = .Keyword)
    ∧ (∀ b ∈ brackets ++ quotes, b ∈ completionList) :=
  ⟨rfl, by decide, by decide, by decide, by decide⟩

/-- Witness for C1 at a concrete state and request. -/
theorem completion_full_catalog_merge_witness :
    onCompletion stateA paramsA
      = .ok (functionItems ++ keywordItems ++ brackets ++ quotes) :=
  (completion_full_catalog_merge stateA paramsA).1

/-- C3 counterexample: a completion request against a uri that names no open
document (the state has no open documents at all) does not fail with
DocumentNotFound; it succeeds with the full static list. -/
theorem completion_closed_uri_counterexample :
    stateA.openDocs = []
    ∧ onCompletion stateA paramsA = .ok completionList
    ∧ onCompletion stateA paramsA ≠ .error .documentNotFound :=
  ⟨rfl, rfl, fun h => nomatch h⟩

/-- C3 amended: a completion request, whether or not its uri names an open
document, never fails; it always succeeds with the full static list, and in
particular never produces a DocumentNotFound condition and never crashes the
process. -/
theorem completion_never_fails (s : ServerState)
    (p : TextDocumentPositionParams) :
    onCompletion s p = .ok completionList
    ∧ ∀ e : LspError, onCompletion s p ≠ .error e :=
  ⟨rfl, fun _ h => nomatch h⟩

/-- Witness for C3 amended at a concrete unopened uri. -/
theorem completion_never_fails_witness :
    onCompletion stateA paramsA = .ok completionList
    ∧ onCompletion stateA paramsA ≠ .error .documentNotFound :=
  ⟨(completion_never_fails stateA paramsA).1,
   (completion_never_fails stateA paramsA).2 .documentNotFound⟩

/-- C5: the completion handler is a constant function: any two invocations,
on any server states and any text-document position parameters, return the
same completion list. -/
theorem completion_is_constant (s1 s2 : ServerState)
    (p1 p2 : TextDocumentPositionParams) :
    onCompletion s1 p1 = onCompletion s2 p2 :=
  rfl

/-- Witness for C5: a request on an empty-state server and a request on a
server with an open document, at different uris and positions, agree. -/
theorem completion_is_constant_witness :
    onCompletion stateA paramsA = onCompletion stateB paramsB :=
  completion_is_constant stateA stateB paramsA paramsB

/-- C9: every initialize request is answered with completionProvider
resolveProvider true and textDocumentSync Incremental. -/
theorem initialize_capabilities (s : ServerState) (params : InitializeParams) :
    (onInitialize s params).2.capabilities.completionProvider.resolveProvider
        = true
    ∧ (onInitialize s params).2.capabilities.textDocumentSync = .Incremental :=
  ⟨rfl, rfl⟩

/-- Witness for C9 at a concrete request with no workspace capabilities. -/
theorem initialize_capabilities_witness :
    (onInitialize stateA ⟨⟨none⟩⟩).2.capabilities.completionProvider.resolveProvider
        = true
    ∧ (onInitialize stateA ⟨⟨none⟩⟩).2.capabilities.textDocumentSync
        = .Incremental :=
  initialize_capabilities stateA ⟨⟨none⟩⟩

/-- C2 counterexample: the first bracket item the server itself returns
carries no resolve data, and resolving it does not return the item
unmodified: the resolve handler raises a TypeError reading data.type. -/
theorem resolve_bracket_item_counterexample :
    brackets[0]?
      = some { label := "(", kind := .Text, insertText := some "(" }
    ∧ onCompletionResolve { label := "(", kind := .Text, insertText := some "(" }
        = .error .typeError :=
  ⟨rfl, rfl⟩

/-- C2 amended: resolving an item with no resolve data raises a TypeError,
and so does resolving a function-tagged item whose index is out of range;
a keyword-tagged item with an out-of-range index is returned with detail set
to the string Keyword: undefined (so modified, not unmodified) and its
documentation untouched.  Only the keyword branch degrades gracefully. -/
theorem resolve_out_of_catalog_behavior :
    (∀ item : CompletionItem, item.data = none →
       onCompletionResolve item = .error .typeError)
    ∧ (∀ item : CompletionItem, ∀ d : ResolveData, item.data = some d →
         d.type = "function" → functions.length ≤ d.id →
         onCompletionResolve item = .error .typeError)
    ∧ (∀ item : CompletionItem, ∀ d : ResolveData, item.data = some d →
         d.type = "keyword" → keywords.length ≤ d.id →
         onCompletionResolve item
           = .ok { item with detail := some "Keyword: undefined" }) := by
  refine ⟨fun item h => ?_, fun item d h ht hid => ?_,
          fun item d h ht hid => ?_⟩
  · simp [onCompletionResolve, h]
  · have hnone : functions[d.id]? = none := List.getElem?_eq_none hid
    simp [onCompletionResolve, h, ht, hnone]
  · have hnone : keywords[d.id]? = none := List.getElem?_eq_none hid
    simp [onCompletionResolve, h, ht, hnone]

/-- Witness for C2 amended: a bracket item, an out-of-range function item and
an out-of-range keyword item, each resolved concretely. -/
theorem resolve_out_of_catalog_behavior_witness :
    onCompletionResolve { label := ")", kind := .Text, insertText := some ")" }
        = .error .typeError
    ∧ onCompletionResolve
        { label := "x", kind := .Function, data := some ⟨"function", 99⟩ }
        = .error .typeError
    ∧ onCompletionResolve
        { label := "x", kind := .Keyword, data := some ⟨"keyword", 99⟩ }
        = .ok { label := "x", kind := .Keyword,
                data := some ⟨"keyword", 99⟩,
                detail := some "Keyword: undefined" } :=
  ⟨resolve_out_of_catalog_behavior.1 _ rfl,
   resolve_out_of_catalog_behavior.2.1 _ ⟨"function", 99⟩ rfl rfl (by decide),
   resolve_out_of_catalog_behavior.2.2 _ ⟨"keyword", 99⟩ rfl rfl (by decide)⟩

/-- C4: resolve is idempotent: feeding the outcome of a resolve back into
resolve reproduces that outcome exactly, on every completion item. -/
theorem resolve_idempotent (item : CompletionItem) :
    (onCompletionResolve item).bind onCompletionResolve
      = onCompletionResolve item := by
  rcases hd : item.data with _ | ⟨t, i⟩
  · simp [onCompletionResolve, hd, Except.bind]
  · by_cases ht : t = "keyword"
    · subst ht
      rcases hk : keywords[i]? with _ | kw
      · simp [onCompletionResolve, hd, hk, Except.bind]
      · rcases hw : keywordDoc kw with _ | doc
        · simp [onCompletionResolve, hd, hk, hw, Except.bind]
        · simp [onCompletionResolve, hd, hk, hw, Except.bind]
    · by_cases hf : t = "function"
      · subst hf
        rcases hq : functions[i]? with _ | f
        · simp [onCompletionResolve, hd, hq, Except.bind]
        · simp [onCompletionResolve, hd, hq, Except.bind]
      · simp [onCompletionResolve, hd, ht, hf, Except.bind]

/-- Witness for C4 at the item the server emits for to_timestamp. -/
theorem resolve_idempotent_witness :
    (onCompletionResolve toTimestampItem).bind onCompletionResolve
      = onCompletionResolve toTimestampItem :=
  resolve_idempotent toTimestampItem

/-- C6 counterexample: with the document containing if x followed by an open
brace and return open, and the cursor right after ret, the completion list
still contains the keyword if, which does not match the prefix ret. -/
theorem completion_includes_if_counterexample :
    stateB.openDocs = [("file:///a.rel", "if x \x7b return")]
    ∧ ({ label := "if", kind := .Keyword, data := some ⟨"keyword", 0⟩ }
        : CompletionItem) ∈ completionListOf stateB paramsB :=
  ⟨rfl, by decide⟩

/-- C6 amended: for that document and cursor the completion list contains the
keyword return, but no prefix filtering happens: every keyword is offered,
the keyword items appear in catalog order, and the keyword if is the first
keyword item, ahead of return. -/
theorem completion_keywords_unfiltered :
    (({ label := "return", kind := .Keyword, data := some ⟨"keyword", 6⟩ }
        : CompletionItem) ∈ completionListOf stateB paramsB)
    ∧ (({ label := "if", kind := .Keyword, data := some ⟨"keyword", 0⟩ }
        : CompletionItem) ∈ completionListOf stateB paramsB)
    ∧ ((completionListOf stateB paramsB).filter
          (fun it => it.kind == .Keyword)).map (fun it => it.label)
        = keywords :=
  ⟨by decide, by decide, by decide⟩

/-- C7 counterexample: not every returned item carries identity in its
resolve data: the bracket and quote items carry none at all, and the item
for to_timestamp carries the tag function together with the array position
0 of the entry, not the entry name. -/
theorem resolve_data_positional_counterexample :
    (∃ it ∈ completionListOf stateA paramsA, it.data = none)
    ∧ (completionListOf stateA paramsA)[0]?
        = some { label := "to_timestamp", kind := .Function,
                 data := some ⟨"function", 0⟩ }
    ∧ (functions[0]?).map (fun f => f.name) = some "to_timestamp" :=
  ⟨by decide, by decide, by decide⟩

/-- C7 amended: keyword and function items carry resolve data holding a
catalog tag and the array index of the entry, positional rather than
name-keyed, and bracket and quote items carry no resolve data; index-based
lookup re-locates the same entry only because the catalogs are constants. -/
theorem resolve_data_is_array_index :
    (∀ i ∈ List.range functions.length,
       functionItems[i]? = (functions[i]?).map (fun f =>
         { label := f.name, kind := .Function, data := some ⟨"function", i⟩ }))
    ∧ (∀ i ∈ List.range keywords.length,
       keywordItems[i]? = (keywords[i]?).map (fun kw =>
         { label := kw, kind := .Keyword, data := some ⟨"keyword", i⟩ }))
    ∧ (∀ b ∈ brackets ++ quotes, b.data = none) :=
  ⟨by decide, by decide, by decide⟩

/-- Witness for C7 amended at index 0 of the function catalog. -/
theorem resolve_data_is_array_index_witness :
    functionItems[0]? = (functions[0]?).map (fun f =>
      { label := f.name, kind := .Function, data := some ⟨"function", 0⟩ }) :=
  resolve_data_is_array_index.1 0 (by decide)

/-- C8: no item of the initial completion list carries detail or
documentation; in particular the to_timestamp item is in the initial list
with no detail, and its category Date appears in the detail field only after
resolve, together with its markdown documentation. -/
theorem documentation_only_on_resolve (s : ServerState)
    (p : TextDocumentPositionParams) :
    (∀ it ∈ completionListOf s p, it.detail = none ∧ it.documentation = none)
    ∧ toTimestampItem ∈ completionListOf s p
    ∧ toTimestampItem.detail = none
    ∧ onCompletionResolve toTimestampItem
        = .ok { toTimestampItem with
                  detail := some "Date: to_timestamp",
                  documentation := some (.markdown "Convert to timestamp") } := by
  have hl : completionListOf s p = completionList := rfl
  refine ⟨?_, ?_, rfl, ?_⟩
  · rw [hl]; decide
  · rw [hl]; decide
  · rfl

/-- Witness for C8 at a concrete state and request. -/
theorem documentation_only_on_resolve_witness :
    toTimestampItem ∈ completionListOf stateA paramsA :=
  (documentation_only_on_resolve stateA paramsA).2.1

/-- C10: the fallback branch of the resolve handler that re-tests
data.type = keyword after the first keyword test failed is dead code:
no input item ever reaches it. -/
theorem dead_keyword_fallback_unreachable (item : CompletionItem) :
    deadKeywordBranchTaken item = false := by
  rcases hd : item.data with _ | d
  · simp [deadKeywordBranchTaken, hd]
  · by_cases h : d.type = "keyword" <;>
      simp [deadKeywordBranchTaken, hd, h]

/-- Witness for C10 at the to_timestamp item. -/
theorem dead_keyword_fallback_unreachable_witness :
    deadKeywordBranchTaken toTimestampItem = false :=
  dead_keyword_fallback_unreachable toTimestampItem
